import Mathlib

/-!
Shallow embedding of the `PrivacyLearning` Solidity contract
(progress-ledger / module-catalog model).

Accounts (`address`) are modelled as naturals; `block.timestamp` is an
explicit argument to every external call; mappings are total functions with
the Solidity zero-value default.  Each external function returns
`Except LearningError (ContractState × List Event)`: a `require` failure
reverts, i.e. returns `.error e` and (at the `applyOp` level) leaves the
state unchanged.  Machine integers are modelled as `Nat`: every quantity
the contract computes here is bounded far below its Solidity width
(`moduleProgress ≤ 100`, `totalProgress ≤ 25500 / 4`, `moduleCount ≤ 255`),
so no wraparound is reachable and the `Nat` semantics agrees with the
checked arithmetic of Solidity 0.8.
-/

abbrev Addr := Nat

/-- `struct LearningModule { string name; uint8 totalLessons; bool isActive; }` -/
structure LearningModule where
  name : String
  totalLessons : Nat
  isActive : Bool
  deriving Repr, DecidableEq

/-- `struct StudentProgress` — per-account record. -/
structure StudentProgress where
  lessonCompleted : Nat → Nat → Bool
  moduleProgress : Nat → Nat
  totalProgress : Nat
  completedLessons : Nat
  learningStreak : Nat
  lastActiveDay : Nat
  isEnrolled : Bool

/-- Contract-level storage. -/
structure ContractState where
  studentProgress : Addr → StudentProgress
  learningModules : Nat → LearningModule
  owner : Addr
  moduleCount : Nat

/-- The distinct `require` messages of the contract. -/
inductive LearningError where
  | onlyOwner          -- "Only owner can call this function"
  | notEnrolled        -- "Student not enrolled"
  | alreadyEnrolled    -- "Already enrolled"
  | invalidModuleId    -- "Invalid module ID"
  | invalidLessonId    -- "Invalid lesson ID"
  | moduleNotActive    -- "Module not active"
  | maxModulesReached  -- "Maximum modules reached"
  deriving Repr, DecidableEq

/-- The contract's events, in emission order inside each call. -/
inductive Event where
  | studentEnrolled (student : Addr)
  | lessonCompleted (student : Addr) (moduleId lessonId : Nat)
  | moduleCompleted (student : Addr) (moduleId : Nat)
  | progressUpdated (student : Addr)
  deriving Repr, DecidableEq

/-- `uint8 public constant LESSONS_PER_MODULE = 4;` -/
def LESSONS_PER_MODULE : Nat := 4

/-- Solidity zero-value of `StudentProgress` (mapping default). -/
def emptyProgress : StudentProgress where
  lessonCompleted := fun _ _ => false
  moduleProgress := fun _ => 0
  totalProgress := 0
  completedLessons := 0
  learningStreak := 0
  lastActiveDay := 0
  isEnrolled := false

/-- Solidity zero-value of `LearningModule` (mapping default). -/
def defaultModule : LearningModule where
  name := ""
  totalLessons := 0
  isActive := false

/-- `initializeModules()` — the four hard-coded modules, all with
`LESSONS_PER_MODULE` lessons and active. -/
def initModules : Nat → LearningModule := fun i =>
  if i = 0 then ⟨"Cryptography Basics", LESSONS_PER_MODULE, true⟩
  else if i = 1 then ⟨"Blockchain Fundamentals", LESSONS_PER_MODULE, true⟩
  else if i = 2 then ⟨"Privacy Technologies", LESSONS_PER_MODULE, true⟩
  else if i = 3 then ⟨"Advanced Applications", LESSONS_PER_MODULE, true⟩
  else defaultModule

/-- `constructor()` — sets the owner and runs `initializeModules`. -/
def initState (owner : Addr) : ContractState where
  studentProgress := fun _ => emptyProgress
  learningModules := initModules
  owner := owner
  moduleCount := 4

/-- Number of `true` entries among `lessonCompleted[m][0 .. LESSONS_PER_MODULE)` —
the counting loop of `_updateProgress`. -/
def countCompletedInModule (lc : Nat → Nat → Bool) (moduleId : Nat) : Nat :=
  (List.range LESSONS_PER_MODULE).countP (fun i => lc moduleId i)

/-- `_updateProgress(_moduleId)`: full recomputation of the derived fields of
the caller's record from the current `lessonCompleted` matrix, returning the
updated record together with the events this function emits
(`ModuleCompleted` when the recomputed percentage is 100, then always
`ProgressUpdated`). -/
def updateProgressFn (s : ContractState) (sender : Addr) (p : StudentProgress)
    (moduleId : Nat) : StudentProgress × List Event :=
  let completedInModule := countCompletedInModule p.lessonCompleted moduleId
  -- `completedInModule * 25; // 100/4 lessons = 25% per lesson`
  let moduleProgressPercent := completedInModule * 25
  let mp := Function.update p.moduleProgress moduleId moduleProgressPercent
  let totalModuleProgress := ((List.range s.moduleCount).map mp).sum
  let totalCompleted :=
    ((List.range s.moduleCount).map
      (fun i => countCompletedInModule p.lessonCompleted i)).sum
  let p' : StudentProgress :=
    { p with
      moduleProgress := mp
      totalProgress := totalModuleProgress / s.moduleCount
      completedLessons := totalCompleted }
  (p', (if moduleProgressPercent = 100 then [Event.moduleCompleted sender moduleId] else [])
        ++ [Event.progressUpdated sender])

/-- `enrollStudent()` — reverts with "Already enrolled" when the caller's
record is already enrolled; otherwise creates the record with zeroed derived
fields, `lastActiveDay = block.timestamp / 86400`, zeroes `moduleProgress`
for every `i < moduleCount`, and emits `StudentEnrolled`. -/
def enrollStudent (s : ContractState) (sender : Addr) (timestamp : Nat) :
    Except LearningError (ContractState × List Event) :=
  if (s.studentProgress sender).isEnrolled then .error .alreadyEnrolled
  else
    let p := s.studentProgress sender
    let p' : StudentProgress :=
      { p with
        isEnrolled := true
        totalProgress := 0
        completedLessons := 0
        learningStreak := 0
        lastActiveDay := timestamp / 86400
        moduleProgress := fun i => if i < s.moduleCount then 0 else p.moduleProgress i }
    .ok ({ s with studentProgress := Function.update s.studentProgress sender p' },
         [Event.studentEnrolled sender])

/-- `studentProgress[msg.sender].lessonCompleted[_moduleId][_lessonId] = _completed;` -/
def storeLesson (p : StudentProgress) (moduleId lessonId : Nat) (completed : Bool) :
    StudentProgress :=
  { p with lessonCompleted := fun m l =>
      if m = moduleId ∧ l = lessonId then completed else p.lessonCompleted m l }

/-- The streak-update block of `completeLesson`:
`if (currentDay > lastActiveDay && _completed) { ... }`. -/
def streakUpdate (p : StudentProgress) (currentDay : Nat) (completed : Bool) :
    StudentProgress :=
  if p.lastActiveDay < currentDay ∧ completed = true then
    { p with
      learningStreak :=
        if currentDay = p.lastActiveDay + 1 then p.learningStreak + 1 else 1
      lastActiveDay := currentDay }
  else p

/-- `completeLesson(_moduleId, _lessonId, _completed)`.  Checks, in order:
`onlyEnrolled`, `_moduleId < moduleCount`, `_lessonId < LESSONS_PER_MODULE`,
`learningModules[_moduleId].isActive`; then stores the flag, runs the streak
update, emits `LessonCompleted`, and calls `_updateProgress`. -/
def completeLesson (s : ContractState) (sender : Addr) (timestamp : Nat)
    (moduleId lessonId : Nat) (completed : Bool) :
    Except LearningError (ContractState × List Event) :=
  if (s.studentProgress sender).isEnrolled then
    if moduleId < s.moduleCount then
      if lessonId < LESSONS_PER_MODULE then
        if (s.learningModules moduleId).isActive then
          let p2 := streakUpdate
            (storeLesson (s.studentProgress sender) moduleId lessonId completed)
            (timestamp / 86400) completed
          let pe := updateProgressFn s sender p2 moduleId
          .ok ({ s with studentProgress := Function.update s.studentProgress sender pe.1 },
               Event.lessonCompleted sender moduleId lessonId :: pe.2)
        else .error .moduleNotActive
      else .error .invalidLessonId
    else .error .invalidModuleId
  else .error .notEnrolled

/-- `addModule(_name, _totalLessons)` — `onlyOwner`; reverts with
"Maximum modules reached" unless `moduleCount < 255`; otherwise appends the
module at id `moduleCount` (active, with the given lesson count — note: no
validation of `_totalLessons` whatsoever) and increments `moduleCount`. -/
def addModule (s : ContractState) (sender : Addr) (name : String)
    (totalLessons : Nat) : Except LearningError (ContractState × List Event) :=
  if sender = s.owner then
    if s.moduleCount < 255 then
      .ok ({ s with
             learningModules :=
               Function.update s.learningModules s.moduleCount ⟨name, totalLessons, true⟩
             moduleCount := s.moduleCount + 1 }, [])
    else .error .maxModulesReached
  else .error .onlyOwner

/-- `toggleModule(_moduleId)` — `onlyOwner`; reverts with "Invalid module ID"
unless `moduleId < moduleCount`; otherwise flips `isActive` of that module. -/
def toggleModule (s : ContractState) (sender : Addr) (moduleId : Nat) :
    Except LearningError (ContractState × List Event) :=
  if sender = s.owner then
    if moduleId < s.moduleCount then
      .ok ({ s with
             learningModules :=
               Function.update s.learningModules moduleId
                 { s.learningModules moduleId with
                   isActive := !(s.learningModules moduleId).isActive } }, [])
    else .error .invalidModuleId
  else .error .onlyOwner

/-- `isStudentEnrolled(_student)` view. -/
def isStudentEnrolled (s : ContractState) (student : Addr) : Bool :=
  (s.studentProgress student).isEnrolled

/-- One external transaction: sender, timestamp and arguments. -/
inductive Op where
  | enroll (sender : Addr) (timestamp : Nat)
  | complete (sender : Addr) (timestamp : Nat) (moduleId lessonId : Nat) (completed : Bool)
  | add (sender : Addr) (name : String) (totalLessons : Nat)
  | toggle (sender : Addr) (moduleId : Nat)

/-- Transaction semantics: a reverted call leaves the state unchanged. -/
def applyOp (s : ContractState) (op : Op) : ContractState :=
  match op with
  | .enroll a t =>
      match enrollStudent s a t with
      | .ok (s', _) => s'
      | .error _ => s
  | .complete a t m l c =>
      match completeLesson s a t m l c with
      | .ok (s', _) => s'
      | .error _ => s
  | .add a n tl =>
      match addModule s a n tl with
      | .ok (s', _) => s'
      | .error _ => s
  | .toggle a m =>
      match toggleModule s a m with
      | .ok (s', _) => s'
      | .error _ => s

/-- Run a list of transactions from a state. -/
def applyOps (s : ContractState) (ops : List Op) : ContractState :=
  ops.foldl applyOp s

/-- The states reachable from a fresh deployment. -/
def Reachable (s : ContractState) : Prop :=
  ∃ owner ops, s = applyOps (initState owner) ops

/-! ### Basic lemmas about the embedding -/

theorem storeLesson_moduleProgress (p : StudentProgress) (m l : Nat) (c : Bool) :
    (storeLesson p m l c).moduleProgress = p.moduleProgress := rfl

theorem storeLesson_lastActiveDay (p : StudentProgress) (m l : Nat) (c : Bool) :
    (storeLesson p m l c).lastActiveDay = p.lastActiveDay := rfl

theorem storeLesson_learningStreak (p : StudentProgress) (m l : Nat) (c : Bool) :
    (storeLesson p m l c).learningStreak = p.learningStreak := rfl

theorem storeLesson_isEnrolled (p : StudentProgress) (m l : Nat) (c : Bool) :
    (storeLesson p m l c).isEnrolled = p.isEnrolled := rfl

theorem streakUpdate_lessonCompleted (p : StudentProgress) (d : Nat) (c : Bool) :
    (streakUpdate p d c).lessonCompleted = p.lessonCompleted := by
  unfold streakUpdate; split <;> rfl

theorem streakUpdate_moduleProgress (p : StudentProgress) (d : Nat) (c : Bool) :
    (streakUpdate p d c).moduleProgress = p.moduleProgress := by
  unfold streakUpdate; split <;> rfl

theorem streakUpdate_isEnrolled (p : StudentProgress) (d : Nat) (c : Bool) :
    (streakUpdate p d c).isEnrolled = p.isEnrolled := by
  unfold streakUpdate; split <;> rfl

theorem updateProgressFn_fst (s : ContractState) (a : Addr) (p : StudentProgress)
    (m : Nat) :
    (updateProgressFn s a p m).1 =
      { p with
        moduleProgress :=
          Function.update p.moduleProgress m
            (countCompletedInModule p.lessonCompleted m * 25)
        totalProgress :=
          ((List.range s.moduleCount).map
            (Function.update p.moduleProgress m
              (countCompletedInModule p.lessonCompleted m * 25))).sum / s.moduleCount
        completedLessons :=
          ((List.range s.moduleCount).map
            (fun i => countCompletedInModule p.lessonCompleted i)).sum } := rfl

theorem updateProgressFn_snd (s : ContractState) (a : Addr) (p : StudentProgress)
    (m : Nat) :
    (updateProgressFn s a p m).2 =
      (if countCompletedInModule p.lessonCompleted m * 25 = 100
        then [Event.moduleCompleted a m] else []) ++ [Event.progressUpdated a] := rfl

/-- Success characterization of `completeLesson`. -/
theorem completeLesson_isOk_iff (s : ContractState) (a : Addr) (t m l : Nat) (c : Bool) :
    (completeLesson s a t m l c).isOk = true ↔
      (s.studentProgress a).isEnrolled = true ∧ m < s.moduleCount ∧
      l < LESSONS_PER_MODULE ∧ (s.learningModules m).isActive = true := by
  by_cases h1 : (s.studentProgress a).isEnrolled = true <;>
    by_cases h2 : m < s.moduleCount <;>
      by_cases h3 : l < LESSONS_PER_MODULE <;>
        by_cases h4 : (s.learningModules m).isActive = true <;>
          simp [completeLesson, h1, h2, h3, h4, Except.isOk, Except.toBool]

/-- The explicit success shape of `completeLesson`. -/
theorem completeLesson_ok (s : ContractState) (a : Addr) (t m l : Nat) (c : Bool)
    (h1 : (s.studentProgress a).isEnrolled = true) (h2 : m < s.moduleCount)
    (h3 : l < LESSONS_PER_MODULE) (h4 : (s.learningModules m).isActive = true) :
    completeLesson s a t m l c =
      .ok ({ s with
              studentProgress :=
                Function.update s.studentProgress a
                  (updateProgressFn s a
                    (streakUpdate (storeLesson (s.studentProgress a) m l c)
                      (t / 86400) c) m).1 },
            Event.lessonCompleted a m l ::
              (updateProgressFn s a
                (streakUpdate (storeLesson (s.studentProgress a) m l c)
                  (t / 86400) c) m).2) := by
  simp [completeLesson, h1, h2, h3, h4]

/-- Post-state of a successful `complete` transaction. -/
theorem applyOp_complete (s : ContractState) (a : Addr) (t m l : Nat) (c : Bool)
    (h1 : (s.studentProgress a).isEnrolled = true) (h2 : m < s.moduleCount)
    (h3 : l < LESSONS_PER_MODULE) (h4 : (s.learningModules m).isActive = true) :
    applyOp s (.complete a t m l c) =
      { s with
        studentProgress :=
          Function.update s.studentProgress a
            (updateProgressFn s a
              (streakUpdate (storeLesson (s.studentProgress a) m l c)
                (t / 86400) c) m).1 } := by
  simp [applyOp, completeLesson_ok s a t m l c h1 h2 h3 h4]

/-- Success characterization of `enrollStudent`. -/
theorem enrollStudent_isOk_iff (s : ContractState) (a : Addr) (t : Nat) :
    (enrollStudent s a t).isOk = true ↔ (s.studentProgress a).isEnrolled = false := by
  by_cases h : (s.studentProgress a).isEnrolled = true <;>
    simp [enrollStudent, h, Except.isOk, Except.toBool]

/-- The explicit success shape of `enrollStudent`. -/
theorem enrollStudent_ok (s : ContractState) (a : Addr) (t : Nat)
    (h : (s.studentProgress a).isEnrolled = false) :
    enrollStudent s a t =
      .ok ({ s with
              studentProgress :=
                Function.update s.studentProgress a
                  { s.studentProgress a with
                    isEnrolled := true
                    totalProgress := 0
                    completedLessons := 0
                    learningStreak := 0
                    lastActiveDay := t / 86400
                    moduleProgress := fun i =>
                      if i < s.moduleCount then 0
                      else (s.studentProgress a).moduleProgress i } },
            [Event.studentEnrolled a]) := by
  simp [enrollStudent, h]

/-! ### Concrete scenario states -/

/-- Fresh deployment with account 1 enrolled at timestamp 0, then all four
lessons of module 0 completed. -/
def module0DoneState : ContractState :=
  applyOps (initState 0) [.enroll 1 0, .complete 1 0 0 0 true, .complete 1 0 0 1 true,
    .complete 1 0 0 2 true, .complete 1 0 0 3 true]

/-- Deployment plus an admin-added fifth module configured with 3 lessons,
account 1 enrolled. -/
def threeLessonState : ContractState :=
  applyOps (initState 0) [.add 0 "Extra Module" 3, .enroll 1 0]

/-- Deployment plus an admin-added fifth module configured with 2 lessons,
account 1 enrolled. -/
def twoLessonState : ContractState :=
  applyOps (initState 0) [.add 0 "Tiny Module" 2, .enroll 1 0]

/-- Deployment plus an admin-added fifth module configured with 7 lessons,
account 1 enrolled. -/
def sevenLessonState : ContractState :=
  applyOps (initState 0) [.add 0 "Big Module" 7, .enroll 1 0]

/-- A state already at the 255-module capacity ceiling. -/
def cap255State : ContractState where
  studentProgress := fun _ => emptyProgress
  learningModules := initModules
  owner := 0
  moduleCount := 255

/-- Account 1 enrolled on day 8 (timestamp `8 * 86400`). -/
def day8State : ContractState := applyOps (initState 0) [.enroll 1 (8 * 86400)]

/-! ### C4 -/

/-- C4 (amended): `completeLesson` checks its preconditions in the fixed
order NotEnrolled, UnknownModule, UnknownLesson, ModuleInactive, the first
failing one winning, and succeeds exactly when all four hold — where the
lesson-id bound is the fixed constant `LESSONS_PER_MODULE = 4`, not the
module's configured `totalLessons`. -/
theorem c4_precondition_order (s : ContractState) (a : Addr) (t m l : Nat) (c : Bool) :
    (completeLesson s a t m l c = .error .notEnrolled ↔
      (s.studentProgress a).isEnrolled = false) ∧
    (completeLesson s a t m l c = .error .invalidModuleId ↔
      (s.studentProgress a).isEnrolled = true ∧ ¬ m < s.moduleCount) ∧
    (completeLesson s a t m l c = .error .invalidLessonId ↔
      (s.studentProgress a).isEnrolled = true ∧ m < s.moduleCount ∧
      ¬ l < LESSONS_PER_MODULE) ∧
    (completeLesson s a t m l c = .error .moduleNotActive ↔
      (s.studentProgress a).isEnrolled = true ∧ m < s.moduleCount ∧
      l < LESSONS_PER_MODULE ∧ (s.learningModules m).isActive = false) ∧
    ((completeLesson s a t m l c).isOk = true ↔
      (s.studentProgress a).isEnrolled = true ∧ m < s.moduleCount ∧
      l < LESSONS_PER_MODULE ∧ (s.learningModules m).isActive = true) := by
  by_cases h1 : (s.studentProgress a).isEnrolled = true <;>
    by_cases h2 : m < s.moduleCount <;>
      by_cases h3 : l < LESSONS_PER_MODULE <;>
        by_cases h4 : (s.learningModules m).isActive = true <;>
          simp [completeLesson, h1, h2, h3, h4, Except.isOk, Except.toBool,
            Bool.not_eq_true] at *

/-- C4 counterexample: in a state whose fifth module is configured with
`totalLessons = 2`, an enrolled caller successfully records lesson 2 of that
module — so "UnknownLesson if `lessonId >= module[moduleId].lessonCount`"
does not hold of the code: the bound actually used is the constant 4. -/
theorem c4_counterexample :
    (twoLessonState.studentProgress 1).isEnrolled = true ∧
    4 < twoLessonState.moduleCount ∧
    (twoLessonState.learningModules 4).totalLessons = 2 ∧
    (twoLessonState.learningModules 4).isActive = true ∧
    (completeLesson twoLessonState 1 0 4 2 true).isOk = true := by decide

/-! ### C2 -/

/-- C2 counterexample: a fifth module configured with `totalLessons = 3`;
after one completed lesson its progress is 25, not `floor(1 * 100 / 3) = 33`
— the recomputation multiplies by 25 irrespective of the configured lesson
count. -/
theorem c2_counterexample :
    (threeLessonState.learningModules 4).totalLessons = 3 ∧
    (threeLessonState.studentProgress 1).isEnrolled = true ∧
    ((applyOp threeLessonState (.complete 1 0 4 0 true)).studentProgress 1).moduleProgress 4
      = 25 ∧
    1 * 100 / 3 = 33 ∧ (25 : Nat) ≠ 33 := by decide

/-- C2 (amended): after a successful `completeLesson`, the affected module's
progress equals `completedInModule * 25 = floor(completedInModule * 100 /
LESSONS_PER_MODULE)` with the fixed constant `LESSONS_PER_MODULE = 4` as
denominator (not the module's configured `totalLessons`), where
`completedInModule` counts the true entries among lessons `0..4`; for the
reference modules with 4 lessons this gives 25/50/75/100 after 1/2/3/4
completions, as the concrete run on module 0 shows. -/
theorem c2_module_progress :
    (∀ (s : ContractState) (a : Addr) (t m l : Nat) (c : Bool),
      (completeLesson s a t m l c).isOk = true →
      ((applyOp s (.complete a t m l c)).studentProgress a).moduleProgress m =
        countCompletedInModule
          ((applyOp s (.complete a t m l c)).studentProgress a).lessonCompleted m * 25 ∧
      ((applyOp s (.complete a t m l c)).studentProgress a).moduleProgress m =
        countCompletedInModule
          ((applyOp s (.complete a t m l c)).studentProgress a).lessonCompleted m * 100
          / LESSONS_PER_MODULE) ∧
    ((applyOps (initState 0) [.enroll 1 0,
        .complete 1 0 0 0 true]).studentProgress 1).moduleProgress 0 = 25 ∧
    ((applyOps (initState 0) [.enroll 1 0, .complete 1 0 0 0 true,
        .complete 1 0 0 1 true]).studentProgress 1).moduleProgress 0 = 50 ∧
    ((applyOps (initState 0) [.enroll 1 0, .complete 1 0 0 0 true,
        .complete 1 0 0 1 true, .complete 1 0 0 2 true]).studentProgress 1).moduleProgress 0
      = 75 ∧
    (module0DoneState.studentProgress 1).moduleProgress 0 = 100 := by
  refine ⟨?_, by decide, by decide, by decide, by decide⟩
  intro s a t m l c h
  rw [completeLesson_isOk_iff] at h
  obtain ⟨h1, h2, h3, h4⟩ := h
  rw [applyOp_complete s a t m l c h1 h2 h3 h4]
  constructor
  · simp [updateProgressFn_fst, Function.update_same]
  · simp [updateProgressFn_fst, Function.update_same, LESSONS_PER_MODULE]
    omega

/-- Witness for the amended C2 theorem at a concrete successful call. -/
theorem c2_module_progress_witness :
    ((applyOp (applyOps (initState 0) [.enroll 1 0])
        (.complete 1 0 0 0 true)).studentProgress 1).moduleProgress 0 =
      countCompletedInModule
        ((applyOp (applyOps (initState 0) [.enroll 1 0])
          (.complete 1 0 0 0 true)).studentProgress 1).lessonCompleted 0 * 25 ∧
    ((applyOp (applyOps (initState 0) [.enroll 1 0])
        (.complete 1 0 0 0 true)).studentProgress 1).moduleProgress 0 =
      countCompletedInModule
        ((applyOp (applyOps (initState 0) [.enroll 1 0])
          (.complete 1 0 0 0 true)).studentProgress 1).lessonCompleted 0 * 100
        / LESSONS_PER_MODULE :=
  c2_module_progress.1 (applyOps (initState 0) [.enroll 1 0]) 1 0 0 0 true (by decide)

/-! ### C1 -/

/-- C1: after every successful `completeLesson`, the derived fields match the
full recomputation from the current `lessonCompleted` matrix: the affected
module's progress is the truncated percentage of its completed lesson slots
(`completedInModule * 100 / LESSONS_PER_MODULE`), `completedLessons` is the
count of true entries across all modules, and `totalProgress` is
`floor(sum(moduleProgress) / moduleCount)` — the two-stage truncated mean;
in particular with module 0 at 100 and modules 1–3 at 0, `totalProgress`
is 25. -/
theorem c1_derived_fields_consistent :
    (∀ (s : ContractState) (a : Addr) (t m l : Nat) (c : Bool),
      (completeLesson s a t m l c).isOk = true →
      ((applyOp s (.complete a t m l c)).studentProgress a).moduleProgress m =
        countCompletedInModule
          ((applyOp s (.complete a t m l c)).studentProgress a).lessonCompleted m * 100
          / LESSONS_PER_MODULE ∧
      ((applyOp s (.complete a t m l c)).studentProgress a).completedLessons =
        ((List.range (applyOp s (.complete a t m l c)).moduleCount).map
          (fun i => countCompletedInModule
            ((applyOp s (.complete a t m l c)).studentProgress a).lessonCompleted i)).sum ∧
      ((applyOp s (.complete a t m l c)).studentProgress a).totalProgress =
        ((List.range (applyOp s (.complete a t m l c)).moduleCount).map
          ((applyOp s (.complete a t m l c)).studentProgress a).moduleProgress).sum
          / (applyOp s (.complete a t m l c)).moduleCount) ∧
    (module0DoneState.moduleCount = 4 ∧
     (module0DoneState.studentProgress 1).moduleProgress 0 = 100 ∧
     (module0DoneState.studentProgress 1).moduleProgress 1 = 0 ∧
     (module0DoneState.studentProgress 1).moduleProgress 2 = 0 ∧
     (module0DoneState.studentProgress 1).moduleProgress 3 = 0 ∧
     (module0DoneState.studentProgress 1).totalProgress = 25 ∧
     (module0DoneState.studentProgress 1).completedLessons = 4) := by
  refine ⟨?_, by decide⟩
  intro s a t m l c h
  rw [completeLesson_isOk_iff] at h
  obtain ⟨h1, h2, h3, h4⟩ := h
  rw [applyOp_complete s a t m l c h1 h2 h3 h4]
  refine ⟨?_, ?_, ?_⟩
  · simp [updateProgressFn_fst, Function.update_same, LESSONS_PER_MODULE]
    omega
  · simp [updateProgressFn_fst, Function.update_same]
  · simp [updateProgressFn_fst, Function.update_same]

/-- Witness for the C1 theorem at a concrete successful call. -/
theorem c1_witness :
    ((applyOp (applyOps (initState 0) [.enroll 1 0])
        (.complete 1 0 0 1 true)).studentProgress 1).moduleProgress 0 =
      countCompletedInModule
        ((applyOp (applyOps (initState 0) [.enroll 1 0])
          (.complete 1 0 0 1 true)).studentProgress 1).lessonCompleted 0 * 100
        / LESSONS_PER_MODULE ∧
    ((applyOp (applyOps (initState 0) [.enroll 1 0])
        (.complete 1 0 0 1 true)).studentProgress 1).completedLessons =
      ((List.range (applyOp (applyOps (initState 0) [.enroll 1 0])
          (.complete 1 0 0 1 true)).moduleCount).map
        (fun i => countCompletedInModule
          ((applyOp (applyOps (initState 0) [.enroll 1 0])
            (.complete 1 0 0 1 true)).studentProgress 1).lessonCompleted i)).sum ∧
    ((applyOp (applyOps (initState 0) [.enroll 1 0])
        (.complete 1 0 0 1 true)).studentProgress 1).totalProgress =
      ((List.range (applyOp (applyOps (initState 0) [.enroll 1 0])
          (.complete 1 0 0 1 true)).moduleCount).map
        ((applyOp (applyOps (initState 0) [.enroll 1 0])
          (.complete 1 0 0 1 true)).studentProgress 1).moduleProgress).sum
        / (applyOp (applyOps (initState 0) [.enroll 1 0])
            (.complete 1 0 0 1 true)).moduleCount :=
  c1_derived_fields_consistent.1 (applyOps (initState 0) [.enroll 1 0]) 1 0 0 1 true
    (by decide)

/-! ### C3 -/

theorem updateProgressFn_learningStreak (s : ContractState) (a : Addr)
    (p : StudentProgress) (m : Nat) :
    (updateProgressFn s a p m).1.learningStreak = p.learningStreak := rfl

theorem updateProgressFn_lastActiveDay (s : ContractState) (a : Addr)
    (p : StudentProgress) (m : Nat) :
    (updateProgressFn s a p m).1.lastActiveDay = p.lastActiveDay := rfl

theorem updateProgressFn_lessonCompleted (s : ContractState) (a : Addr)
    (p : StudentProgress) (m : Nat) :
    (updateProgressFn s a p m).1.lessonCompleted = p.lessonCompleted := rfl

theorem streakUpdate_of_false (p : StudentProgress) (d : Nat) :
    streakUpdate p d false = p := by
  unfold streakUpdate
  rw [if_neg]
  exact fun hc => Bool.false_ne_true hc.2

theorem streakUpdate_of_le (p : StudentProgress) (d : Nat) (c : Bool)
    (h : d ≤ p.lastActiveDay) :
    streakUpdate p d c = p := by
  unfold streakUpdate
  rw [if_neg]
  exact fun hc => absurd hc.1 (Nat.not_lt.mpr h)

theorem streakUpdate_consecutive (p : StudentProgress) (d : Nat)
    (h : d = p.lastActiveDay + 1) :
    streakUpdate p d true =
      { p with learningStreak := p.learningStreak + 1, lastActiveDay := d } := by
  unfold streakUpdate
  rw [if_pos ⟨by omega, rfl⟩, if_pos h]

theorem streakUpdate_gap (p : StudentProgress) (d : Nat)
    (h : p.lastActiveDay + 1 < d) :
    streakUpdate p d true =
      { p with learningStreak := 1, lastActiveDay := d } := by
  unfold streakUpdate
  rw [if_pos ⟨by omega, rfl⟩, if_neg (by omega)]

/-- C3: the streak update of a successful `completeLesson` with
`today = timestamp / 86400`: with `completed = false`, or with
`today ≤ lastActiveDay` (same day or out-of-order), streak and
`lastActiveDay` are unchanged; with `completed = true` and
`today = lastActiveDay + 1` the streak increments and `lastActiveDay`
becomes `today`; with `completed = true` and `today > lastActiveDay + 1` the
streak resets to 1 and `lastActiveDay` becomes `today`.  The concrete
scenario: enrolled on day 8, completing on day 10 gives streak 1 and
`lastActiveDay` 10, on day 11 streak 2, on day 15 streak 1 and
`lastActiveDay` 15, and a second day-15 completion leaves the streak at 1. -/
theorem c3_streak_update :
    (∀ (s : ContractState) (a : Addr) (t m l : Nat) (c : Bool),
      (completeLesson s a t m l c).isOk = true →
      ((c = false →
          ((applyOp s (.complete a t m l c)).studentProgress a).learningStreak =
            (s.studentProgress a).learningStreak ∧
          ((applyOp s (.complete a t m l c)).studentProgress a).lastActiveDay =
            (s.studentProgress a).lastActiveDay) ∧
       (t / 86400 ≤ (s.studentProgress a).lastActiveDay →
          ((applyOp s (.complete a t m l c)).studentProgress a).learningStreak =
            (s.studentProgress a).learningStreak ∧
          ((applyOp s (.complete a t m l c)).studentProgress a).lastActiveDay =
            (s.studentProgress a).lastActiveDay) ∧
       (c = true → t / 86400 = (s.studentProgress a).lastActiveDay + 1 →
          ((applyOp s (.complete a t m l c)).studentProgress a).learningStreak =
            (s.studentProgress a).learningStreak + 1 ∧
          ((applyOp s (.complete a t m l c)).studentProgress a).lastActiveDay =
            t / 86400) ∧
       (c = true → (s.studentProgress a).lastActiveDay + 1 < t / 86400 →
          ((applyOp s (.complete a t m l c)).studentProgress a).learningStreak = 1 ∧
          ((applyOp s (.complete a t m l c)).studentProgress a).lastActiveDay =
            t / 86400))) ∧
    (((applyOps day8State [.complete 1 (10 * 86400) 0 0 true]).studentProgress 1).learningStreak = 1 ∧
     ((applyOps day8State [.complete 1 (10 * 86400) 0 0 true]).studentProgress 1).lastActiveDay = 10 ∧
     ((applyOps day8State [.complete 1 (10 * 86400) 0 0 true,
        .complete 1 (11 * 86400) 0 1 true]).studentProgress 1).learningStreak = 2 ∧
     ((applyOps day8State [.complete 1 (10 * 86400) 0 0 true, .complete 1 (11 * 86400) 0 1 true,
        .complete 1 (15 * 86400) 0 2 true]).studentProgress 1).learningStreak = 1 ∧
     ((applyOps day8State [.complete 1 (10 * 86400) 0 0 true, .complete 1 (11 * 86400) 0 1 true,
        .complete 1 (15 * 86400) 0 2 true]).studentProgress 1).lastActiveDay = 15 ∧
     ((applyOps day8State [.complete 1 (10 * 86400) 0 0 true, .complete 1 (11 * 86400) 0 1 true,
        .complete 1 (15 * 86400) 0 2 true,
        .complete 1 (15 * 86400) 0 3 true]).studentProgress 1).learningStreak = 1) := by
  refine ⟨?_, by decide⟩
  intro s a t m l c h
  rw [completeLesson_isOk_iff] at h
  obtain ⟨h1, h2, h3, h4⟩ := h
  rw [applyOp_complete s a t m l c h1 h2 h3 h4]
  refine ⟨?_, ?_, ?_, ?_⟩
  · intro hc; subst hc
    simp [Function.update_same, updateProgressFn_learningStreak,
      updateProgressFn_lastActiveDay, streakUpdate_of_false,
      storeLesson_learningStreak, storeLesson_lastActiveDay]
  · intro hle
    have hle' : t / 86400 ≤ (storeLesson (s.studentProgress a) m l c).lastActiveDay := by
      rw [storeLesson_lastActiveDay]; exact hle
    simp only [Function.update_same, updateProgressFn_learningStreak,
      updateProgressFn_lastActiveDay, streakUpdate_of_le _ _ _ hle',
      storeLesson_learningStreak, storeLesson_lastActiveDay]
    exact ⟨trivial, trivial⟩
  · intro hc hd; subst hc
    have hd' : t / 86400 = (storeLesson (s.studentProgress a) m l true).lastActiveDay + 1 := by
      rw [storeLesson_lastActiveDay]; exact hd
    simp only [Function.update_same, updateProgressFn_learningStreak,
      updateProgressFn_lastActiveDay, streakUpdate_consecutive _ _ hd',
      storeLesson_learningStreak, storeLesson_lastActiveDay]
    exact ⟨trivial, trivial⟩
  · intro hc hd; subst hc
    have hd' : (storeLesson (s.studentProgress a) m l true).lastActiveDay + 1 < t / 86400 := by
      rw [storeLesson_lastActiveDay]; exact hd
    simp only [Function.update_same, updateProgressFn_learningStreak,
      updateProgressFn_lastActiveDay, streakUpdate_gap _ _ hd',
      storeLesson_learningStreak, storeLesson_lastActiveDay]
    exact ⟨trivial, trivial⟩

/-- Witness for the C3 theorem: the consecutive-day branch at day 9 after
enrollment on day 8. -/
theorem c3_streak_update_witness :
    ((applyOp day8State (.complete 1 (9 * 86400) 0 0 true)).studentProgress 1).learningStreak =
      (day8State.studentProgress 1).learningStreak + 1 ∧
    ((applyOp day8State (.complete 1 (9 * 86400) 0 0 true)).studentProgress 1).lastActiveDay =
      9 * 86400 / 86400 :=
  (c3_streak_update.1 day8State 1 (9 * 86400) 0 0 true (by decide)).2.2.1 rfl (by decide)

/-! ### C5 -/

/-- C5 counterexample: with module 0 already at progress 100, a further
`completeLesson(0, 0, true)` call emits `ModuleCompleted(1, 0)` again — the
event is not restricted to the transition to 100. -/
theorem c5_counterexample :
    (module0DoneState.studentProgress 1).moduleProgress 0 = 100 ∧
    (completeLesson module0DoneState 1 0 0 0 true).toOption.map Prod.snd =
      some [Event.lessonCompleted 1 0 0, Event.moduleCompleted 1 0,
        Event.progressUpdated 1] := by decide

/-- C5 (amended): a successful `completeLesson` emits `LessonCompleted`
first, then `ModuleCompleted(account, moduleId)` exactly when the affected
module's recomputed progress equals 100 (including calls on a module that
was already at 100), and always `ProgressUpdated` last. -/
theorem c5_event_order (s : ContractState) (a : Addr) (t m l : Nat) (c : Bool)
    (h : (completeLesson s a t m l c).isOk = true) :
    (completeLesson s a t m l c).toOption.map Prod.snd =
      some ([Event.lessonCompleted a m l] ++
        (if ((applyOp s (.complete a t m l c)).studentProgress a).moduleProgress m = 100
          then [Event.moduleCompleted a m] else []) ++
        [Event.progressUpdated a]) := by
  rw [completeLesson_isOk_iff] at h
  obtain ⟨h1, h2, h3, h4⟩ := h
  rw [completeLesson_ok s a t m l c h1 h2 h3 h4,
    applyOp_complete s a t m l c h1 h2 h3 h4]
  simp [updateProgressFn_snd, updateProgressFn_fst, Function.update_same]
  exact ⟨_, rfl⟩

/-- Witness for the C5 theorem at a concrete successful call. -/
theorem c5_event_order_witness :
    (completeLesson (applyOps (initState 0) [.enroll 1 0]) 1 0 0 0 true).toOption.map
        Prod.snd =
      some ([Event.lessonCompleted 1 0 0] ++
        (if ((applyOp (applyOps (initState 0) [.enroll 1 0])
              (.complete 1 0 0 0 true)).studentProgress 1).moduleProgress 0 = 100
          then [Event.moduleCompleted 1 0] else []) ++
        [Event.progressUpdated 1]) :=
  c5_event_order (applyOps (initState 0) [.enroll 1 0]) 1 0 0 0 true (by decide)

/-! ### C6 -/

theorem applyOp_add_studentProgress (s : ContractState) (a : Addr) (n : String)
    (tl : Nat) : (applyOp s (.add a n tl)).studentProgress = s.studentProgress := by
  unfold applyOp addModule
  by_cases h1 : a = s.owner <;> by_cases h2 : s.moduleCount < 255 <;> simp [h1, h2]

theorem applyOp_toggle_studentProgress (s : ContractState) (a : Addr) (m : Nat) :
    (applyOp s (.toggle a m)).studentProgress = s.studentProgress := by
  unfold applyOp toggleModule
  by_cases h1 : a = s.owner <;> by_cases h2 : m < s.moduleCount <;> simp [h1, h2]

/-- A reverted enrollment transaction leaves the state unchanged. -/
theorem applyOp_enroll_of_error (s : ContractState) (a : Addr) (t : Nat)
    (e : LearningError) (h : enrollStudent s a t = .error e) :
    applyOp s (.enroll a t) = s := by
  simp [applyOp, h]

/-- Post-state of a successful `enroll` transaction. -/
theorem applyOp_enroll_ok (s : ContractState) (a : Addr) (t : Nat)
    (h : (s.studentProgress a).isEnrolled = false) :
    applyOp s (.enroll a t) =
      { s with
        studentProgress :=
          Function.update s.studentProgress a
            { s.studentProgress a with
              isEnrolled := true
              totalProgress := 0
              completedLessons := 0
              learningStreak := 0
              lastActiveDay := t / 86400
              moduleProgress := fun i =>
                if i < s.moduleCount then 0
                else (s.studentProgress a).moduleProgress i } } := by
  simp [applyOp, enrollStudent_ok s a t h]

theorem applyOp_enroll_isEnrolled (s : ContractState) (b : Addr) (t : Nat) (a : Addr)
    (h : (s.studentProgress a).isEnrolled = true) :
    ((applyOp s (.enroll b t)).studentProgress a).isEnrolled = true := by
  by_cases hb : (s.studentProgress b).isEnrolled = true
  · have he : enrollStudent s b t = .error .alreadyEnrolled := by
      unfold enrollStudent
      rw [if_pos hb]
    rw [applyOp_enroll_of_error s b t _ he]
    exact h
  · rw [applyOp_enroll_ok s b t (by simpa using hb)]
    by_cases hab : a = b
    · subst hab; simp [Function.update_same]
    · simpa [Function.update_noteq hab] using h

theorem applyOp_complete_isEnrolled (s : ContractState) (b : Addr) (t m l : Nat)
    (c : Bool) (a : Addr) :
    ((applyOp s (.complete b t m l c)).studentProgress a).isEnrolled =
      (s.studentProgress a).isEnrolled := by
  by_cases h1 : (s.studentProgress b).isEnrolled = true <;>
    by_cases h2 : m < s.moduleCount <;>
      by_cases h3 : l < LESSONS_PER_MODULE <;>
        by_cases h4 : (s.learningModules m).isActive = true
  · rw [applyOp_complete s b t m l c h1 h2 h3 h4]
    by_cases hab : a = b
    · subst hab
      simp [Function.update_same, updateProgressFn_fst, streakUpdate_isEnrolled,
        storeLesson_isEnrolled, h1]
    · simp [Function.update_noteq hab]
  all_goals simp [applyOp, completeLesson, h1, h2, h3, h4]

/-- After any transaction, an enrolled account stays enrolled. -/
theorem applyOp_isEnrolled_mono (s : ContractState) (op : Op) (a : Addr)
    (h : (s.studentProgress a).isEnrolled = true) :
    ((applyOp s op).studentProgress a).isEnrolled = true := by
  cases op with
  | enroll b t => exact applyOp_enroll_isEnrolled s b t a h
  | complete b t m l c => rw [applyOp_complete_isEnrolled]; exact h
  | add b n tl => rw [applyOp_add_studentProgress]; exact h
  | toggle b m => rw [applyOp_toggle_studentProgress]; exact h

/-- After any transaction sequence, an enrolled account stays enrolled. -/
theorem applyOps_isEnrolled_mono (ops : List Op) (s : ContractState) (a : Addr)
    (h : (s.studentProgress a).isEnrolled = true) :
    ((applyOps s ops).studentProgress a).isEnrolled = true := by
  induction ops generalizing s with
  | nil => exact h
  | cons op ops ih => exact ih _ (applyOp_isEnrolled_mono s op a h)

/-- C6: after a successful enrollment and any sequence of further
transactions, a second `enrollStudent` call for the same account fails with
`AlreadyEnrolled` and, as a reverted transaction, leaves the whole state —
in particular the account's record — exactly as it was. -/
theorem c6_second_enroll_fails (s : ContractState) (a : Addr) (t : Nat)
    (ops : List Op) (t' : Nat) (h : (enrollStudent s a t).isOk = true) :
    enrollStudent (applyOps (applyOp s (.enroll a t)) ops) a t' =
      .error .alreadyEnrolled ∧
    applyOp (applyOps (applyOp s (.enroll a t)) ops) (.enroll a t') =
      applyOps (applyOp s (.enroll a t)) ops := by
  rw [enrollStudent_isOk_iff] at h
  have h1 : ((applyOp s (.enroll a t)).studentProgress a).isEnrolled = true := by
    rw [applyOp_enroll_ok s a t h]
    simp [Function.update_same]
  have h2 := applyOps_isEnrolled_mono ops _ a h1
  have he : enrollStudent (applyOps (applyOp s (.enroll a t)) ops) a t' =
      .error .alreadyEnrolled := by
    unfold enrollStudent
    rw [if_pos h2]
  exact ⟨he, applyOp_enroll_of_error _ _ _ _ he⟩

/-- Witness for the C6 theorem: account 1 enrolls at timestamp 0, completes
a lesson, and a second enrollment attempt at timestamp 99999 fails without
changing the state. -/
theorem c6_second_enroll_fails_witness :
    enrollStudent (applyOps (applyOp (initState 0) (.enroll 1 0))
        [.complete 1 0 0 0 true]) 1 99999 = .error .alreadyEnrolled ∧
    applyOp (applyOps (applyOp (initState 0) (.enroll 1 0))
        [.complete 1 0 0 0 true]) (.enroll 1 99999) =
      applyOps (applyOp (initState 0) (.enroll 1 0)) [.complete 1 0 0 0 true] :=
  c6_second_enroll_fails (initState 0) 1 0 [.complete 1 0 0 0 true] 99999 (by decide)

/-! ### C7 -/

/-- C7 counterexample: `addModule` with `lessonCount = 0` succeeds — the code
has no `InvalidLessonCount` validation; the module is appended with
`totalLessons = 0`. -/
theorem c7_counterexample :
    (addModule (initState 0) 0 "Zero Lessons" 0).isOk = true ∧
    (applyOp (initState 0) (.add 0 "Zero Lessons" 0)).moduleCount = 5 ∧
    ((applyOp (initState 0) (.add 0 "Zero Lessons" 0)).learningModules 4).totalLessons
      = 0 := by decide

/-- C7 (amended): called by the owner, `addModule` fails with
`CapacityExceeded` (maximum modules reached) when the catalog already holds
255 modules, and the reverted transaction leaves the catalog length and all
entries unchanged; below the ceiling it succeeds, appending an active module
under the fresh contiguous id `moduleCount` and leaving every other entry
and all accounts unchanged — but it performs no validation of `lessonCount`
(zero is accepted, as the counterexample shows). -/
theorem c7_add_module (s : ContractState) (a : Addr) (n : String) (tl : Nat)
    (ha : a = s.owner) :
    (255 ≤ s.moduleCount →
      addModule s a n tl = .error .maxModulesReached ∧
      applyOp s (.add a n tl) = s) ∧
    (s.moduleCount < 255 →
      (addModule s a n tl).isOk = true ∧
      (applyOp s (.add a n tl)).moduleCount = s.moduleCount + 1 ∧
      (applyOp s (.add a n tl)).learningModules s.moduleCount = ⟨n, tl, true⟩ ∧
      (∀ i, i ≠ s.moduleCount →
        (applyOp s (.add a n tl)).learningModules i = s.learningModules i) ∧
      (applyOp s (.add a n tl)).studentProgress = s.studentProgress) := by
  constructor
  · intro hc
    have he : addModule s a n tl = .error .maxModulesReached := by
      unfold addModule
      rw [if_pos ha, if_neg (by omega)]
    exact ⟨he, by simp [applyOp, he]⟩
  · intro hc
    have hok : addModule s a n tl =
        .ok ({ s with
               learningModules :=
                 Function.update s.learningModules s.moduleCount ⟨n, tl, true⟩
               moduleCount := s.moduleCount + 1 }, []) := by
      unfold addModule
      rw [if_pos ha, if_pos hc]
    refine ⟨by simp [hok, Except.isOk, Except.toBool], ?_, ?_, ?_, ?_⟩ <;>
      simp [applyOp, hok, Function.update_same]
    intro i hi
    rw [Function.update_noteq hi]

/-- Witness for the C7 theorem: the capacity branch at a 255-module catalog
and the success branch at a fresh deployment. -/
theorem c7_add_module_witness :
    (addModule cap255State 0 "Overflow" 4 = .error .maxModulesReached ∧
      applyOp cap255State (.add 0 "Overflow" 4) = cap255State) ∧
    (addModule (initState 0) 0 "Fresh" 4).isOk = true :=
  ⟨(c7_add_module cap255State 0 "Overflow" 4 rfl).1 (by decide),
   ((c7_add_module (initState 0) 0 "Fresh" 4 rfl).2 (by decide)).1⟩

/-! ### C8 -/

/-- Every stored module-progress value is one of 0, 25, 50, 75, 100. -/
def ProgressValuesOk (s : ContractState) : Prop :=
  ∀ (a : Addr) (m : Nat),
    (s.studentProgress a).moduleProgress m ∈ ([0, 25, 50, 75, 100] : List Nat)

theorem countCompletedInModule_le (lc : Nat → Nat → Bool) (m : Nat) :
    countCompletedInModule lc m ≤ 4 := by
  unfold countCompletedInModule
  simpa using List.countP_le_length (fun i => lc m i) (l := List.range LESSONS_PER_MODULE)

theorem mul25_mem (k : Nat) (hk : k ≤ 4) :
    k * 25 ∈ ([0, 25, 50, 75, 100] : List Nat) := by
  interval_cases k <;> decide

/-- A reverted completion transaction leaves the state unchanged. -/
theorem applyOp_complete_of_error (s : ContractState) (b : Addr) (t m l : Nat)
    (c : Bool) (e : LearningError) (h : completeLesson s b t m l c = .error e) :
    applyOp s (.complete b t m l c) = s := by
  simp [applyOp, h]

theorem progressValuesOk_applyOp (s : ContractState) (op : Op)
    (h : ProgressValuesOk s) : ProgressValuesOk (applyOp s op) := by
  cases op with
  | enroll b t =>
      by_cases hb : (s.studentProgress b).isEnrolled = true
      · have he : enrollStudent s b t = .error .alreadyEnrolled := by
          unfold enrollStudent
          rw [if_pos hb]
        rw [applyOp_enroll_of_error s b t _ he]
        exact h
      · rw [applyOp_enroll_ok s b t (by simpa using hb)]
        intro a m
        by_cases hab : a = b
        · subst hab
          simp only [Function.update_same]
          by_cases hm : m < s.moduleCount
          · simp [hm]
          · simpa [hm] using h a m
        · simpa [Function.update_noteq hab] using h a m
  | complete b t m' l c =>
      cases hres : completeLesson s b t m' l c with
      | error e =>
          rw [applyOp_complete_of_error s b t m' l c e hres]
          exact h
      | ok pr =>
          have hk : (completeLesson s b t m' l c).isOk = true := by
            rw [hres]; rfl
          rw [completeLesson_isOk_iff] at hk
          obtain ⟨h1, h2, h3, h4⟩ := hk
          rw [applyOp_complete s b t m' l c h1 h2 h3 h4]
          intro a m
          by_cases hab : a = b
          · subst hab
            simp only [Function.update_same, updateProgressFn_fst]
            by_cases hm : m = m'
            · subst hm
              simp only [Function.update_same]
              exact mul25_mem _ (countCompletedInModule_le _ _)
            · simp only [Function.update_noteq hm, streakUpdate_moduleProgress,
                storeLesson_moduleProgress]
              exact h a m
          · simpa [Function.update_noteq hab] using h a m
  | add b n tl =>
      intro a m
      rw [applyOp_add_studentProgress]
      exact h a m
  | toggle b m' =>
      intro a m
      rw [applyOp_toggle_studentProgress]
      exact h a m

theorem progressValuesOk_init (o : Addr) : ProgressValuesOk (initState o) := by
  intro a m
  simp [initState, emptyProgress]

theorem progressValuesOk_applyOps (ops : List Op) (s : ContractState)
    (h : ProgressValuesOk s) : ProgressValuesOk (applyOps s ops) := by
  induction ops generalizing s with
  | nil => exact h
  | cons op ops ih => exact ih _ (progressValuesOk_applyOp s op h)

/-- C8: in every reachable state every stored module-progress value lies in
{0, 25, 50, 75, 100}, regardless of any module's configured `totalLessons`;
concretely, on a module added with `totalLessons = 7` exactly lessons 0–3
are recordable (lesson 4 is rejected) and completing those four brings its
progress to 100. -/
theorem c8_progress_multiples_of_25 :
    (∀ s, Reachable s → ∀ (a : Addr) (m : Nat),
      (s.studentProgress a).moduleProgress m ∈ ([0, 25, 50, 75, 100] : List Nat)) ∧
    (sevenLessonState.learningModules 4).totalLessons = 7 ∧
    ((applyOps sevenLessonState [.complete 1 0 4 0 true, .complete 1 0 4 1 true,
      .complete 1 0 4 2 true,
      .complete 1 0 4 3 true]).studentProgress 1).moduleProgress 4 = 100 ∧
    (completeLesson sevenLessonState 1 0 4 3 true).isOk = true ∧
    completeLesson sevenLessonState 1 0 4 4 true = .error .invalidLessonId := by
  refine ⟨?_, by decide, by decide, by decide, by rfl⟩
  rintro s ⟨o, ops, rfl⟩ a m
  exact progressValuesOk_applyOps ops _ (progressValuesOk_init o) a m

/-- Witness for the C8 theorem at a concrete reachable state. -/
theorem c8_progress_multiples_of_25_witness :
    ((applyOps (initState 0) [.enroll 1 0,
        .complete 1 0 0 0 true]).studentProgress 1).moduleProgress 0 ∈
      ([0, 25, 50, 75, 100] : List Nat) :=
  c8_progress_multiples_of_25.1
    (applyOps (initState 0) [.enroll 1 0, .complete 1 0 0 0 true])
    ⟨0, [.enroll 1 0, .complete 1 0 0 0 true], rfl⟩ 1 0

/-! ### C9 -/

/-- A completion whose day-index does not exceed the record's
`lastActiveDay` never changes the streak or `lastActiveDay` (whether the
call succeeds or reverts). -/
theorem complete_streak_lad_of_le (s : ContractState) (a : Addr) (t m l : Nat)
    (c : Bool) (hle : t / 86400 ≤ (s.studentProgress a).lastActiveDay) :
    ((applyOp s (.complete a t m l c)).studentProgress a).learningStreak =
      (s.studentProgress a).learningStreak ∧
    ((applyOp s (.complete a t m l c)).studentProgress a).lastActiveDay =
      (s.studentProgress a).lastActiveDay := by
  cases hres : completeLesson s a t m l c with
  | error e =>
      rw [applyOp_complete_of_error s a t m l c e hres]
      exact ⟨rfl, rfl⟩
  | ok pr =>
      have hk : (completeLesson s a t m l c).isOk = true := by rw [hres]; rfl
      rw [completeLesson_isOk_iff] at hk
      obtain ⟨h1, h2, h3, h4⟩ := hk
      rw [applyOp_complete s a t m l c h1 h2 h3 h4]
      have hle' : t / 86400 ≤ (storeLesson (s.studentProgress a) m l c).lastActiveDay := by
        rw [storeLesson_lastActiveDay]; exact hle
      simp only [Function.update_same, updateProgressFn_learningStreak,
        updateProgressFn_lastActiveDay, streakUpdate_of_le _ _ _ hle',
        storeLesson_learningStreak, storeLesson_lastActiveDay]
      exact ⟨trivial, trivial⟩

/-- C9: enrollment initializes the streak to 0 and `lastActiveDay` to the
enrollment day-index, and a completion recorded on the same day-index as the
enrollment leaves the streak at 0 — the streak branch runs only when the
current day is strictly greater than `lastActiveDay`, so the first
completion can set the streak to 1 only on a later day. -/
theorem c9_same_day_completion_streak_zero :
    (∀ (s : ContractState) (a : Addr) (t : Nat),
      (enrollStudent s a t).isOk = true →
      ((applyOp s (.enroll a t)).studentProgress a).learningStreak = 0 ∧
      ((applyOp s (.enroll a t)).studentProgress a).lastActiveDay = t / 86400) ∧
    (∀ (s : ContractState) (a : Addr) (t t' m l : Nat) (c : Bool),
      (enrollStudent s a t).isOk = true → t' / 86400 = t / 86400 →
      ((applyOp (applyOp s (.enroll a t))
        (.complete a t' m l c)).studentProgress a).learningStreak = 0) := by
  have base : ∀ (s : ContractState) (a : Addr) (t : Nat),
      (enrollStudent s a t).isOk = true →
      ((applyOp s (.enroll a t)).studentProgress a).learningStreak = 0 ∧
      ((applyOp s (.enroll a t)).studentProgress a).lastActiveDay = t / 86400 := by
    intro s a t h
    rw [enrollStudent_isOk_iff] at h
    rw [applyOp_enroll_ok s a t h]
    simp [Function.update_same]
  refine ⟨base, ?_⟩
  intro s a t t' m l c h hday
  obtain ⟨h0, h1⟩ := base s a t h
  have hle : t' / 86400 ≤ ((applyOp s (.enroll a t)).studentProgress a).lastActiveDay := by
    rw [h1]
    exact Nat.le_of_eq hday
  rw [(complete_streak_lad_of_le (applyOp s (.enroll a t)) a t' m l c hle).1, h0]

/-- Witness for the C9 theorem: enrollment on day 10 and a completion later
the same day leave the streak at 0. -/
theorem c9_same_day_completion_streak_zero_witness :
    ((applyOp (applyOp (initState 0) (.enroll 1 (10 * 86400)))
      (.complete 1 (10 * 86400 + 5000) 0 0 true)).studentProgress 1).learningStreak = 0 :=
  c9_same_day_completion_streak_zero.2 (initState 0) 1 (10 * 86400) (10 * 86400 + 5000)
    0 0 true (by decide) (by decide)

/-! ### C10 -/

/-- Post-state of a successful `toggle` transaction. -/
theorem applyOp_toggle_ok (s : ContractState) (a : Addr) (m : Nat)
    (ha : a = s.owner) (hm : m < s.moduleCount) :
    applyOp s (.toggle a m) =
      { s with
        learningModules :=
          Function.update s.learningModules m
            { s.learningModules m with
              isActive := !(s.learningModules m).isActive } } := by
  have hok : toggleModule s a m =
      .ok ({ s with
             learningModules :=
               Function.update s.learningModules m
                 { s.learningModules m with
                   isActive := !(s.learningModules m).isActive } }, []) := by
    unfold toggleModule
    rw [if_pos ha, if_pos hm]
  simp [applyOp, hok]

/-- C10: for a valid module id, toggling twice restores the exact prior
state (toggling is an involution), and a single toggle flips only that
module's `isActive`, leaving its name and lesson count, every other module,
every account record, the owner and the module count unchanged. -/
theorem c10_toggle_involution (s : ContractState) (a : Addr) (m : Nat)
    (ha : a = s.owner) (hm : m < s.moduleCount) :
    applyOp (applyOp s (.toggle a m)) (.toggle a m) = s ∧
    ((applyOp s (.toggle a m)).learningModules m).isActive =
      !(s.learningModules m).isActive ∧
    ((applyOp s (.toggle a m)).learningModules m).name =
      (s.learningModules m).name ∧
    ((applyOp s (.toggle a m)).learningModules m).totalLessons =
      (s.learningModules m).totalLessons ∧
    (∀ i, i ≠ m →
      (applyOp s (.toggle a m)).learningModules i = s.learningModules i) ∧
    (applyOp s (.toggle a m)).studentProgress = s.studentProgress ∧
    (applyOp s (.toggle a m)).owner = s.owner ∧
    (applyOp s (.toggle a m)).moduleCount = s.moduleCount := by
  have h1 := applyOp_toggle_ok s a m ha hm
  have h2 := applyOp_toggle_ok (applyOp s (.toggle a m)) a m
    (by rw [h1]; exact ha) (by rw [h1]; exact hm)
  refine ⟨?_, ?_, ?_, ?_, ?_, ?_, ?_, ?_⟩
  · rw [h2, h1]
    simp [Function.update_same, Function.update_idem, Bool.not_not,
      Function.update_eq_self]
  all_goals rw [h1]
  all_goals try (intro i hi; simp [Function.update_noteq hi])
  all_goals simp [Function.update_same]

/-- Witness for the C10 theorem: double toggle of module 0 at deployment. -/
theorem c10_toggle_involution_witness :
    applyOp (applyOp (initState 0) (.toggle 0 0)) (.toggle 0 0) = initState 0 :=
  (c10_toggle_involution (initState 0) 0 0 rfl (by decide)).1
